import Mathlib

/-!
Verification of the steam-workshop-downloader orchestration core.

The Go sources are embedded shallowly:
* Go strings are modelled as `List Char` (`Str`). The texts handled by the
  program (SteamCMD console output, keyword patterns, argument vectors) are
  ASCII, where byte-level and rune-level substring search agree, so the
  `List Char` model of `strings.Contains` / `regexp` matching is faithful.
* `strings.ToLower` is modelled on the ASCII range (the only range exercised
  by the program's patterns and by the texts the claims quantify over).
* The three `regexp.MustCompile` patterns of `parseOutput` are embedded as
  explicit scanners.  Each pattern is a sequence of literals, `\d+`, and
  negated single-character classes (`[^"]+`, `[^)]+`) followed by the negated
  character as a literal; for such patterns Go's leftmost-first matching is
  equivalent to maximal munch at the leftmost matching start position:
  a greedy `[^x]+` followed by `x` can never backtrack successfully (the
  character given back is not `x`), and a greedy `\d+` followed by a non-digit
  literal can never backtrack successfully either (the character given back is
  a digit).  The scanners below implement exactly that, trying every start
  position from the left, as `regexp.FindStringSubmatch` does.
* The retry loop (`retry.Do` with `retry.WithMaxRetries 10`) is modelled as a
  function over the list of per-attempt environment results (process run
  outcome and console-log content for each attempt).
-/

/-- Go strings, modelled as lists of characters. -/
abbrev Str := List Char

/-- Models `strings.ToLower` on the ASCII range: maps A-Z to a-z and leaves
every other character unchanged. -/
def strToLower (s : Str) : Str :=
  s.map (fun c => if 65 ≤ c.toNat ∧ c.toNat ≤ 90 then Char.ofNat (c.toNat + 32) else c)

/-- WorkshopItem from the steamcmd package (identical in both client
versions): a downloaded workshop item.  Zero values of the Go struct are
`false`, empty strings and `0`. -/
structure WorkshopItem where
  AppID : Str
  WorkshopID : Str
  Success : Bool
  PathToFile : Str
  SizeBytes : Int
  ErrorMsg : Str
deriving DecidableEq, Repr

/-- The fresh item built at the top of `DownloadWorkshopItem`:
`&WorkshopItem{AppID: appID, WorkshopID: workshopID}`. -/
def initItem (appID workshopID : Str) : WorkshopItem :=
  { AppID := appID, WorkshopID := workshopID, Success := false, PathToFile := [], SizeBytes := 0, ErrorMsg := [] }

/-- Matches a literal at the start of `s`; returns the rest of `s` after the
literal on success. -/
def dropLiteral : Str → Str → Option Str
  | [], s => some s
  | _ :: _, [] => none
  | p :: ps, c :: cs => if c = p then dropLiteral ps cs else none

/-- Models a greedy `[^stop]+` capture followed by the literal `stop`
character: returns the (possibly empty) run of characters before the first
occurrence of `stop`, and the rest after that occurrence; fails when `stop`
does not occur. -/
def takeUntilChar (stop : Char) : Str → Option (Str × Str)
  | [] => none
  | c :: cs =>
    if c = stop then some ([], cs)
    else (takeUntilChar stop cs).map (fun pr => (c :: pr.1, pr.2))

/-- Tries a pattern matcher at every start position from the left and returns
the first (leftmost) result, as `regexp.FindStringSubmatch` does. -/
def findFromStarts {α : Type} (p : Str → Option α) : Str → Option α
  | [] => p []
  | c :: rest =>
    match p (c :: rest) with
    | some a => some a
    | none => findFromStarts p rest

/-- Matcher for `Success\. Downloaded item (\d+) to "([^"]+)" \((\d+) bytes\)`
anchored at the start of `s`; returns the three captures (id digits, path,
byte digits). -/
def matchSuccessAt (s : Str) : Option (Str × Str × Str) :=
  match dropLiteral (("Success. Downloaded item ").data) s with
  | none => none
  | some s1 =>
    let pr1 := s1.span Char.isDigit
    if pr1.1 = [] then none else
    match dropLiteral ((" to \"").data) pr1.2 with
    | none => none
    | some s2 =>
      match takeUntilChar '"' s2 with
      | none => none
      | some pr2 =>
        if pr2.1 = [] then none else
        match dropLiteral ((" (").data) pr2.2 with
        | none => none
        | some s3 =>
          let pr3 := s3.span Char.isDigit
          if pr3.1 = [] then none else
          match dropLiteral ((" bytes)").data) pr3.2 with
          | none => none
          | some _ => some (pr1.1, pr2.1, pr3.1)

/-- Matcher for `ERROR! Download item (\d+) failed \(([^)]+)\)` anchored at
the start of `s`; returns the two captures (id digits, reason). -/
def matchDownloadFailureAt (s : Str) : Option (Str × Str) :=
  match dropLiteral (("ERROR! Download item ").data) s with
  | none => none
  | some s1 =>
    let pr1 := s1.span Char.isDigit
    if pr1.1 = [] then none else
    match dropLiteral ((" failed (").data) pr1.2 with
    | none => none
    | some s2 =>
      match takeUntilChar ')' s2 with
      | none => none
      | some pr2 =>
        if pr2.1 = [] then none else some (pr1.1, pr2.1)

/-- Matcher for `FAILED \(([^)]+)\)` anchored at the start of `s`; returns the
captured reason. -/
def matchLoginFailureAt (s : Str) : Option Str :=
  match dropLiteral (("FAILED (").data) s with
  | none => none
  | some s1 =>
    match takeUntilChar ')' s1 with
    | none => none
    | some pr =>
      if pr.1 = [] then none else some pr.1

/-- Models `successRegex.FindStringSubmatch output` for the pattern
`Success\. Downloaded item (\d+) to "([^"]+)" \((\d+) bytes\)` (the regex
literal is identical in both client versions). -/
def findSuccess : Str → Option (Str × Str × Str) :=
  findFromStarts matchSuccessAt

/-- Models `downloadFailureRegex.FindStringSubmatch output` for the pattern
`ERROR! Download item (\d+) failed \(([^)]+)\)`. -/
def findDownloadFailure : Str → Option (Str × Str) :=
  findFromStarts matchDownloadFailureAt

/-- Models `loginFailureRegex.FindStringSubmatch output` for the pattern
`FAILED \(([^)]+)\)`. -/
def findLoginFailure : Str → Option Str :=
  findFromStarts matchLoginFailureAt

/-- Numeric value of a digit string. -/
def digitsToNat (ds : Str) : Nat :=
  ds.foldl (fun n c => n * 10 + (c.toNat - 48)) 0

/-- Largest value representable by Go's `int64`; `strconv.ParseInt(s, 10, 64)`
on a non-empty unsigned digit string succeeds exactly when the value is at
most this bound, and returns a range error otherwise. -/
def maxInt64 : Nat := 9223372036854775807

namespace RetryClient

/-- Models `(*Client).parseOutput` of the retry-enabled client: classifies the
captured SteamCMD output into the given item (success / download failure /
login failure / unknown, in that order) and returns the updated item together
with the optional error returned by the Go function.  On a success match the
byte count is stored only when `strconv.ParseInt` succeeds (value fits in
`int64`); otherwise `SizeBytes` is left unchanged. -/
def parseOutput (output : Str) (item : WorkshopItem) : WorkshopItem × Option Str :=
  match findSuccess output with
  | some m =>
    let item1 := { item with Success := true, PathToFile := m.2.1 }
    let item2 := if digitsToNat m.2.2 ≤ maxInt64
      then { item1 with SizeBytes := (digitsToNat m.2.2 : Int) } else item1
    (item2, none)
  | none =>
    match findDownloadFailure output with
    | some m =>
      ({ item with Success := false, ErrorMsg := (("Download failed: ").data) ++ m.2 }, none)
    | none =>
      match findLoginFailure output with
      | some reason =>
        ({ item with Success := false, ErrorMsg := (("Login failed: ").data) ++ reason }, none)
      | none =>
        ({ item with Success := false, ErrorMsg := (("Unknown error occurred").data) },
         some ((("unhandled SteamCMD output: ").data) ++ output))

/-- The fixed retryable-error patterns of `(*Client).isRetryableError`. -/
def retryablePatterns : List Str :=
  [ (("timeout").data), (("connection").data), (("network").data),
    (("server").data), (("unavailable").data), (("busy").data),
    (("rate limit").data), (("throttle").data), (("no connection").data),
    (("steam servers").data), (("failure").data), (("failed").data),
    (("error").data), (("temporary").data), (("retry").data),
    (("please try").data) ]

/-- Models `(*Client).isRetryableError`: lowercases the message and reports
whether any fixed pattern occurs in it as a substring. -/
def isRetryableError (errorMsg : Str) : Bool :=
  let errorLower := strToLower errorMsg
  retryablePatterns.any (fun pattern => decide (pattern <:+: errorLower))

/-- Models the argument-vector construction of the retry client's
`DownloadWorkshopItem` (lines 80-97): cached-user login when a username is
provided, anonymous login otherwise. -/
def buildDownloadArgs (username appID workshopID : Str) : List Str :=
  if username ≠ [] then
    [ (("+@ShutdownOnFailedCommand").data), (("1").data),
      (("+login").data), username,
      (("+workshop_download_item").data), appID, workshopID,
      (("+quit").data) ]
  else
    [ (("+@ShutdownOnFailedCommand").data), (("1").data),
      (("+login").data), (("anonymous").data),
      (("+workshop_download_item").data), appID, workshopID,
      (("+quit").data) ]

end RetryClient

namespace SimpleClient

/-- Models `(*Client).parseOutput` of the simple (non-retry) client; the Go
function body and its three regex literals are character-for-character the
same as in the retry client. -/
def parseOutput (output : Str) (item : WorkshopItem) : WorkshopItem × Option Str :=
  match findSuccess output with
  | some m =>
    let item1 := { item with Success := true, PathToFile := m.2.1 }
    let item2 := if digitsToNat m.2.2 ≤ maxInt64
      then { item1 with SizeBytes := (digitsToNat m.2.2 : Int) } else item1
    (item2, none)
  | none =>
    match findDownloadFailure output with
    | some m =>
      ({ item with Success := false, ErrorMsg := (("Download failed: ").data) ++ m.2 }, none)
    | none =>
      match findLoginFailure output with
      | some reason =>
        ({ item with Success := false, ErrorMsg := (("Login failed: ").data) ++ reason }, none)
      | none =>
        ({ item with Success := false, ErrorMsg := (("Unknown error occurred").data) },
         some ((("unhandled SteamCMD output: ").data) ++ output))

end SimpleClient

/-- Authentication modes of the download path, as the spec's
CredentialResolver names them.  The source has no error case: credential
resolution is a total dispatch. -/
inductive AuthMode where
  | Anonymous : AuthMode
  | CachedUser : Str → AuthMode
  | ExplicitLogin : Str → Str → AuthMode
deriving DecidableEq, Repr

/-- Models the credential dispatch of the download command
(`downloadWorkshopItem`: authenticated call only when both username and
password are non-empty) composed with the retry client's
`DownloadWorkshopItem` login selection (cached-user login when a username is
provided, anonymous otherwise). -/
def resolveAuthMode (username password : Str) : AuthMode :=
  if username ≠ [] ∧ password ≠ [] then AuthMode.ExplicitLogin username password
  else if username ≠ [] then AuthMode.CachedUser username
  else AuthMode.Anonymous

namespace RetryClient

/-- Result of one body execution of the `retry.Do` closure: `ok` is a `nil`
return, `fatalErr` a plain error, `retryableErr` an error wrapped in
`retry.RetryableError`. -/
inductive StepResult where
  | ok : StepResult
  | fatalErr : Str → StepResult
  | retryableErr : Str → StepResult
deriving DecidableEq, Repr

/-- Environment of a single attempt: either `cmd.Run()` failed (with the Go
error text, the combined output captured so far, and the content of the
console log file read afterwards), or it succeeded with the given combined
output text. -/
inductive AttemptInput where
  | execFail : Str → Str → Str → AttemptInput
  | output : Str → AttemptInput
deriving DecidableEq, Repr

/-- Models lines 107-122 of the retry client's `DownloadWorkshopItem`: when
`cmd.Run()` fails, the console log is checked for the literal
`Not logged on`; if present the closure returns a plain (fatal) error, and
otherwise a retryable wrapped error. -/
def handleRunError (runErr outputText logContent : Str) : StepResult :=
  if (("Not logged on").data) <:+: logContent then
    StepResult.fatalErr (("not logged on to Steam. Please run 'workshop login' first to authenticate").data)
  else
    StepResult.retryableErr ((("failed to run SteamCMD: ").data) ++ runErr ++ (("\nOutput: ").data) ++ outputText)

/-- Models one execution of the `retry.Do` closure body of the retry client's
`DownloadWorkshopItem` (lines 74-144), given the attempt's environment:
run failure handling, then `parseOutput`, then the retryable/fatal decision
through `isRetryableError` on the item's `ErrorMsg`. -/
def attemptStep (inp : AttemptInput) (item : WorkshopItem) : WorkshopItem × StepResult :=
  match inp with
  | AttemptInput.execFail runErr outputText logContent =>
    (item, handleRunError runErr outputText logContent)
  | AttemptInput.output text =>
    let r := parseOutput text item
    match r.2 with
    | some e =>
      if !r.1.Success && isRetryableError r.1.ErrorMsg then
        (r.1, StepResult.retryableErr ((("SteamCMD download failed: ").data) ++ r.1.ErrorMsg))
      else
        (r.1, StepResult.fatalErr ((("failed to parse SteamCMD output: ").data) ++ e))
    | none =>
      if !r.1.Success then
        if isRetryableError r.1.ErrorMsg then
          (r.1, StepResult.retryableErr ((("download failed: ").data) ++ r.1.ErrorMsg))
        else
          (r.1, StepResult.fatalErr ((("download failed: ").data) ++ r.1.ErrorMsg))
      else
        (r.1, StepResult.ok)

/-- Models `retry.Do` with the Fibonacci backoff wrapped in
`retry.WithMaxRetries`: runs the closure on successive attempt environments;
a `nil` return ends the loop, a plain error ends it with that error, and a
retryable error triggers another attempt while retries remain (and is
returned unwrapped when they are exhausted).  Delays are irrelevant to the
returned value and are not modelled.  The input list is the environment; a
run that would need more attempts than inputs provided is outside the model
(the `[]` case is then unreachable). -/
def downloadGo : Nat → List AttemptInput → WorkshopItem → WorkshopItem × Option Str
  | _, [], item => (item, none)
  | retriesLeft, inp :: rest, item =>
    match attemptStep inp item with
    | (item1, StepResult.ok) => (item1, none)
    | (item1, StepResult.fatalErr e) => (item1, some e)
    | (item1, StepResult.retryableErr e) =>
      match retriesLeft with
      | 0 => (item1, some e)
      | r + 1 => downloadGo r rest item1

/-- Models the retry client's `DownloadWorkshopItem`: builds the fresh item
and runs the bounded retry loop (`maxRetries = 10`, hence at most 11
attempts); the item is returned in every case, with the error of the last
attempt when the loop failed. -/
def DownloadWorkshopItem (appID workshopID username : Str) (inputs : List AttemptInput) : WorkshopItem × Option Str :=
  downloadGo 10 inputs (initItem appID workshopID)

/-- The `ErrorMsg` text that `parseOutput` assigns for a given output text,
independent of the incoming item: `none` when the text matches the success
pattern (no failure message is assigned), otherwise the classified failure
message. -/
def classifyErrorMsg (text : Str) : Option Str :=
  match findSuccess text with
  | some _ => none
  | none =>
    match findDownloadFailure text with
    | some m => some ((("Download failed: ").data) ++ m.2)
    | none =>
      match findLoginFailure text with
      | some reason => some ((("Login failed: ").data) ++ reason)
      | none => some (("Unknown error occurred").data)

end RetryClient

/-- C10: the output parser of the retry-enabled client and the output parser
of the simple client are extensionally equal: on every output text and every
initial item they produce the same updated item (same Success, PathToFile,
SizeBytes, ErrorMsg) and the same error/no-error result. -/
theorem c10_parsers_extensionally_equal (text : Str) (item : WorkshopItem) :
    RetryClient.parseOutput text item = SimpleClient.parseOutput text item := rfl

/-- C8: for every (appID, workshopID) pair, the retry client's download
invocation in anonymous mode builds exactly the ordered argument vector
shutdown-on-failed-command 1, login anonymous, workshop-download-item appID
workshopID, quit. -/
theorem c8_anonymous_argument_vector (appID workshopID : Str) :
    RetryClient.buildDownloadArgs [] appID workshopID =
      [ (("+@ShutdownOnFailedCommand").data), (("1").data),
        (("+login").data), (("anonymous").data),
        (("+workshop_download_item").data), appID, workshopID,
        (("+quit").data) ] := by
  simp [RetryClient.buildDownloadArgs]

/-- C2: the retryability check returns true iff the lowercased message
contains one of the sixteen fixed keywords as a substring, and any two
messages with the same lowercase form classify identically. -/
theorem c2_retryable_iff_keyword (s : Str) :
    (RetryClient.isRetryableError s = true ↔
      ∃ p ∈ RetryClient.retryablePatterns, p <:+: strToLower s) ∧
    (∀ t : Str, strToLower s = strToLower t →
      RetryClient.isRetryableError s = RetryClient.isRetryableError t) := by
  constructor
  · simp [RetryClient.isRetryableError, List.any_eq_true]
  · intro t h
    simp only [RetryClient.isRetryableError, h]

/-- Witness for C2 at the spec's own fixture strings. -/
theorem c2_retryable_iff_keyword_witness :
    strToLower (("CONNECTION TIMEOUT").data) = strToLower (("connection timeout").data) ∧
    RetryClient.isRetryableError (("CONNECTION TIMEOUT").data) =
      RetryClient.isRetryableError (("connection timeout").data) ∧
    RetryClient.isRetryableError (("connection timeout").data) = true :=
  ⟨by decide,
   (c2_retryable_iff_keyword (("CONNECTION TIMEOUT").data)).2 (("connection timeout").data) (by decide),
   by decide⟩

/-- Counterexample to C3: a non-empty password with an empty username does
not fail with a configuration error (credential resolution in the source is
total and has no error path); it selects anonymous mode. -/
theorem c3_counterexample_password_only_is_anonymous :
    resolveAuthMode [] (("x").data) = AuthMode.Anonymous := by decide

/-- C3 amended: both username and password non-empty selects explicit login,
username only selects cached-user mode, and an empty username selects
anonymous mode whatever the password is (a password without a username is
silently ignored; no configuration error exists). -/
theorem c3_amended_credential_resolution (username password : Str) :
    (username ≠ [] → password ≠ [] →
      resolveAuthMode username password = AuthMode.ExplicitLogin username password) ∧
    (username ≠ [] → password = [] →
      resolveAuthMode username password = AuthMode.CachedUser username) ∧
    (username = [] → resolveAuthMode username password = AuthMode.Anonymous) := by
  refine ⟨fun hu hp => ?_, fun hu hp => ?_, fun hu => ?_⟩
  · simp [resolveAuthMode, hu, hp]
  · subst hp
    simp [resolveAuthMode, hu]
  · subst hu
    simp [resolveAuthMode]

/-- Witness for the amended C3 at the spec's four fixture inputs. -/
theorem c3_amended_credential_resolution_witness :
    ((("bob").data) ≠ ([] : Str)) ∧ ((("x").data) ≠ ([] : Str)) ∧
    resolveAuthMode (("bob").data) (("x").data) = AuthMode.ExplicitLogin (("bob").data) (("x").data) ∧
    resolveAuthMode (("bob").data) [] = AuthMode.CachedUser (("bob").data) ∧
    resolveAuthMode [] [] = AuthMode.Anonymous ∧
    resolveAuthMode [] (("x").data) = AuthMode.Anonymous :=
  ⟨by decide, by decide,
   (c3_amended_credential_resolution (("bob").data) (("x").data)).1 (by decide) (by decide),
   (c3_amended_credential_resolution (("bob").data) []).2.1 (by decide) rfl,
   (c3_amended_credential_resolution [] []).2.2 rfl,
   (c3_amended_credential_resolution [] (("x").data)).2.2 rfl⟩

/-- Evaluation of the code at the failing input of C1: the text
`FAILED (Invalid Password)` is classified as a login failure with reason
`Invalid Password` (ErrorMsg `Login failed: Invalid Password`), but the retry
policy, which the code applies to the full ErrorMsg, finds the keyword
`failed` in it and classifies the failure retryable, so the attempt returns a
retryable error, not a fatal one.  The bare reason `Invalid Password` matches
no keyword, and the repository's own test expects
`isRetryableError("login failed - invalid credentials") = false`, which the
code contradicts. -/
theorem c1_login_failure_is_retried :
    RetryClient.parseOutput (("FAILED (Invalid Password)").data) (initItem (("107410").data) (("123456").data)) =
      ({ AppID := (("107410").data), WorkshopID := (("123456").data), Success := false,
         PathToFile := [], SizeBytes := 0, ErrorMsg := (("Login failed: Invalid Password").data) }, none) ∧
    RetryClient.isRetryableError (("Login failed: Invalid Password").data) = true ∧
    RetryClient.isRetryableError (("Invalid Password").data) = false ∧
    RetryClient.isRetryableError (("login failed - invalid credentials").data) = true ∧
    RetryClient.attemptStep (RetryClient.AttemptInput.output (("FAILED (Invalid Password)").data))
        (initItem (("107410").data) (("123456").data)) =
      ({ AppID := (("107410").data), WorkshopID := (("123456").data), Success := false,
         PathToFile := [], SizeBytes := 0, ErrorMsg := (("Login failed: Invalid Password").data) },
       RetryClient.StepResult.retryableErr ((("download failed: Login failed: Invalid Password").data))) := by
  decide

/-- C4: every output text matching the success pattern classifies as a
success whose PathToFile is the captured path and whose SizeBytes is the
numeric value of the captured digits when it fits in an int64 and 0 (the
fresh item's value) otherwise; the parse never returns an error in this
case. -/
theorem c4_success_classification (appID workshopID output ds path ns : Str)
    (h : findSuccess output = some (ds, path, ns)) :
    (RetryClient.parseOutput output (initItem appID workshopID)).1.Success = true ∧
    (RetryClient.parseOutput output (initItem appID workshopID)).1.PathToFile = path ∧
    (RetryClient.parseOutput output (initItem appID workshopID)).1.SizeBytes =
      (if digitsToNat ns ≤ maxInt64 then (digitsToNat ns : Int) else 0) ∧
    (RetryClient.parseOutput output (initItem appID workshopID)).2 = none := by
  by_cases hc : digitsToNat ns ≤ maxInt64 <;>
    simp [RetryClient.parseOutput, h, hc, initItem]

/-- Witness for C4: a well-formed success line, and one whose byte count
overflows int64 (so `strconv.ParseInt` fails and the size stays 0). -/
theorem c4_success_classification_witness :
    (findSuccess (("Success. Downloaded item 123 to \"/tmp/mods/item\" (4096 bytes)").data) =
        some ((("123").data), (("/tmp/mods/item").data), (("4096").data)) ∧
      (RetryClient.parseOutput (("Success. Downloaded item 123 to \"/tmp/mods/item\" (4096 bytes)").data)
          (initItem (("107410").data) (("9").data))).1.Success = true ∧
      (RetryClient.parseOutput (("Success. Downloaded item 123 to \"/tmp/mods/item\" (4096 bytes)").data)
          (initItem (("107410").data) (("9").data))).1.PathToFile = (("/tmp/mods/item").data) ∧
      (RetryClient.parseOutput (("Success. Downloaded item 123 to \"/tmp/mods/item\" (4096 bytes)").data)
          (initItem (("107410").data) (("9").data))).1.SizeBytes =
        (if digitsToNat (("4096").data) ≤ maxInt64 then (digitsToNat (("4096").data) : Int) else 0) ∧
      (RetryClient.parseOutput (("Success. Downloaded item 123 to \"/tmp/mods/item\" (4096 bytes)").data)
          (initItem (("107410").data) (("9").data))).2 = none) ∧
    (findSuccess (("Success. Downloaded item 1 to \"/p\" (99999999999999999999 bytes)").data) =
        some ((("1").data), (("/p").data), (("99999999999999999999").data)) ∧
      (RetryClient.parseOutput (("Success. Downloaded item 1 to \"/p\" (99999999999999999999 bytes)").data)
          (initItem (("107410").data) (("9").data))).1.Success = true ∧
      (RetryClient.parseOutput (("Success. Downloaded item 1 to \"/p\" (99999999999999999999 bytes)").data)
          (initItem (("107410").data) (("9").data))).1.PathToFile = (("/p").data) ∧
      (RetryClient.parseOutput (("Success. Downloaded item 1 to \"/p\" (99999999999999999999 bytes)").data)
          (initItem (("107410").data) (("9").data))).1.SizeBytes =
        (if digitsToNat (("99999999999999999999").data) ≤ maxInt64 then (digitsToNat (("99999999999999999999").data) : Int) else 0) ∧
      (RetryClient.parseOutput (("Success. Downloaded item 1 to \"/p\" (99999999999999999999 bytes)").data)
          (initItem (("107410").data) (("9").data))).2 = none) :=
  ⟨⟨by decide, c4_success_classification (("107410").data) (("9").data)
      (("Success. Downloaded item 123 to \"/tmp/mods/item\" (4096 bytes)").data)
      (("123").data) (("/tmp/mods/item").data) (("4096").data) (by decide)⟩,
   ⟨by decide, c4_success_classification (("107410").data) (("9").data)
      (("Success. Downloaded item 1 to \"/p\" (99999999999999999999 bytes)").data)
      (("1").data) (("/p").data) (("99999999999999999999").data) (by decide)⟩⟩

/-- C5: on a text that does not match the success pattern but matches both
the download-failure and the login-failure pattern, classification yields the
download failure (its reason, prefixed `Download failed: `), never the login
failure. -/
theorem c5_download_failure_has_priority (item : WorkshopItem) (output ds reason r2 : Str)
    (h1 : findSuccess output = none)
    (h2 : findDownloadFailure output = some (ds, reason))
    (hlf : findLoginFailure output = some r2) :
    RetryClient.parseOutput output item =
      ({ item with Success := false, ErrorMsg := (("Download failed: ").data) ++ reason }, none) ∧
    (RetryClient.parseOutput output item).1.ErrorMsg ≠ (("Login failed: ").data) ++ r2 := by
  have hmain : RetryClient.parseOutput output item =
      ({ item with Success := false, ErrorMsg := (("Download failed: ").data) ++ reason }, none) := by
    simp [RetryClient.parseOutput, h1, h2]
  refine ⟨hmain, ?_⟩
  rw [hmain]
  intro hcontra
  simp at hcontra

/-- Witness for C5: a text carrying both an `ERROR! Download item ... failed
(...)` line and a `FAILED (...)` fragment. -/
theorem c5_download_failure_has_priority_witness :
    (findSuccess (("ERROR! Download item 7 failed (Timeout) FAILED (Invalid Password)").data) = none) ∧
    (findDownloadFailure (("ERROR! Download item 7 failed (Timeout) FAILED (Invalid Password)").data) =
      some ((("7").data), (("Timeout").data))) ∧
    (findLoginFailure (("ERROR! Download item 7 failed (Timeout) FAILED (Invalid Password)").data) =
      some (("Invalid Password").data)) ∧
    RetryClient.parseOutput (("ERROR! Download item 7 failed (Timeout) FAILED (Invalid Password)").data)
        (initItem (("107410").data) (("9").data)) =
      ({ initItem (("107410").data) (("9").data) with Success := false, ErrorMsg := (("Download failed: ").data) ++ (("Timeout").data) }, none) :=
  ⟨by decide, by decide, by decide,
   (c5_download_failure_has_priority (initItem (("107410").data) (("9").data))
     (("ERROR! Download item 7 failed (Timeout) FAILED (Invalid Password)").data)
     (("7").data) (("Timeout").data) (("Invalid Password").data)
     (by decide) (by decide) (by decide)).1⟩

/-- C6: on a text matching none of the three patterns, the item is marked
unsuccessful with the fixed sentinel message `Unknown error occurred`, and
the returned error is the fixed prefix `unhandled SteamCMD output: ` followed
by the input text verbatim. -/
theorem c6_unknown_output_preserved (item : WorkshopItem) (output : Str)
    (h1 : findSuccess output = none)
    (h2 : findDownloadFailure output = none)
    (h3 : findLoginFailure output = none) :
    RetryClient.parseOutput output item =
      ({ item with Success := false, ErrorMsg := (("Unknown error occurred").data) },
       some ((("unhandled SteamCMD output: ").data) ++ output)) := by
  simp [RetryClient.parseOutput, h1, h2, h3]

/-- Witness for C6 at a diagnostic text with no recognized pattern. -/
theorem c6_unknown_output_preserved_witness :
    (findSuccess (("Redirecting stderr to console log").data) = none) ∧
    (findDownloadFailure (("Redirecting stderr to console log").data) = none) ∧
    (findLoginFailure (("Redirecting stderr to console log").data) = none) ∧
    RetryClient.parseOutput (("Redirecting stderr to console log").data) (initItem (("107410").data) (("9").data)) =
      ({ initItem (("107410").data) (("9").data) with Success := false, ErrorMsg := (("Unknown error occurred").data) },
       some ((("unhandled SteamCMD output: ").data) ++ (("Redirecting stderr to console log").data))) :=
  ⟨by decide, by decide, by decide,
   c6_unknown_output_preserved (initItem (("107410").data) (("9").data)) _
     (by decide) (by decide) (by decide)⟩

/-- Counterexample to C7: a console-log text containing the lowercase phrase
`not logged on` does not trigger the fatal override — the match in the source
is case-sensitive on `Not logged on` — so the run failure is classified
retryable and a retry is attempted. -/
theorem c7_counterexample_lowercase_not_fatal :
    ((("not logged on").data) <:+: (("steamcmd: not logged on").data)) ∧
    RetryClient.handleRunError (("exit status 1").data) [] (("steamcmd: not logged on").data) =
      RetryClient.StepResult.retryableErr ((("failed to run SteamCMD: exit status 1\nOutput: ").data)) := by
  constructor
  · decide
  · decide

/-- C7 amended: whenever the console-log diagnostic text contains the exact
phrase `Not logged on` (matched case-sensitively, anywhere in the text), a
run failure is classified fatal and the retry loop stops immediately with the
not-logged-on error, performing no further attempt — regardless of any retry
keyword, which this path never consults. -/
theorem c7_amended_not_logged_on_fatal (runErr outputText logContent : Str)
    (rest : List RetryClient.AttemptInput) (item : WorkshopItem) (r : Nat)
    (h : (("Not logged on").data) <:+: logContent) :
    RetryClient.downloadGo r (RetryClient.AttemptInput.execFail runErr outputText logContent :: rest) item =
      (item, some (("not logged on to Steam. Please run 'workshop login' first to authenticate").data)) := by
  simp [RetryClient.downloadGo, RetryClient.attemptStep, RetryClient.handleRunError, h]

/-- Witness for the amended C7 at a concrete log text. -/
theorem c7_amended_not_logged_on_fatal_witness :
    ((("Not logged on").data) <:+: (("Steam console: Not logged on yet").data)) ∧
    RetryClient.downloadGo 10
        [RetryClient.AttemptInput.execFail (("exit status 1").data) [] (("Steam console: Not logged on yet").data)]
        (initItem (("1").data) (("2").data)) =
      (initItem (("1").data) (("2").data),
       some (("not logged on to Steam. Please run 'workshop login' first to authenticate").data)) :=
  ⟨by decide,
   c7_amended_not_logged_on_fatal _ _ _ _ _ _ (by decide)⟩

/-- On a text whose classification is a failure message, `parseOutput` marks
the item unsuccessful and assigns exactly that message, leaving the item's
identifiers untouched, whatever the incoming item was. -/
theorem parseOutput_classify_some (text : Str) (item : WorkshopItem) (msg : Str)
    (h : RetryClient.classifyErrorMsg text = some msg) :
    (RetryClient.parseOutput text item).1.Success = false ∧
    (RetryClient.parseOutput text item).1.ErrorMsg = msg ∧
    (RetryClient.parseOutput text item).1.AppID = item.AppID ∧
    (RetryClient.parseOutput text item).1.WorkshopID = item.WorkshopID := by
  rcases hs : findSuccess text with _ | m
  · rcases hd : findDownloadFailure text with _ | m2
    · rcases hl : findLoginFailure text with _ | reason
      · simp [RetryClient.classifyErrorMsg, hs, hd, hl] at h
        simp [RetryClient.parseOutput, hs, hd, hl, ← h]
      · simp [RetryClient.classifyErrorMsg, hs, hd, hl] at h
        simp [RetryClient.parseOutput, hs, hd, hl, ← h]
    · simp [RetryClient.classifyErrorMsg, hs, hd] at h
      simp [RetryClient.parseOutput, hs, hd, ← h]
  · simp [RetryClient.classifyErrorMsg, hs] at h

/-- On a text whose classification is a success, `parseOutput` marks the item
successful and returns no error. -/
theorem parseOutput_classify_none (text : Str) (item : WorkshopItem)
    (h : RetryClient.classifyErrorMsg text = none) :
    (RetryClient.parseOutput text item).1.Success = true ∧
    (RetryClient.parseOutput text item).2 = none := by
  rcases hs : findSuccess text with _ | m
  · rcases hd : findDownloadFailure text with _ | m2
    · rcases hl : findLoginFailure text with _ | reason
      · simp [RetryClient.classifyErrorMsg, hs, hd, hl] at h
      · simp [RetryClient.classifyErrorMsg, hs, hd, hl] at h
    · simp [RetryClient.classifyErrorMsg, hs, hd] at h
  · by_cases hc : digitsToNat m.2.2 ≤ maxInt64 <;>
      simp [RetryClient.parseOutput, hs, hc]

/-- A classification success makes the closure body return `nil`. -/
theorem attemptStep_output_ok (text : Str) (item : WorkshopItem)
    (h : RetryClient.classifyErrorMsg text = none) :
    RetryClient.attemptStep (RetryClient.AttemptInput.output text) item =
      ((RetryClient.parseOutput text item).1, RetryClient.StepResult.ok) := by
  have hp := parseOutput_classify_none text item h
  simp [RetryClient.attemptStep, hp.1, hp.2]

/-- When the closure body returns an error (fatal or retryable), the updated
item is still marked unsuccessful, keeps its identifiers, and its ErrorMsg is
either unchanged (run failure) or the classification message of the
attempt's output text. -/
theorem attemptStep_err_spec (inp : RetryClient.AttemptInput) (item item1 : WorkshopItem) (e : Str)
    (hS : item.Success = false)
    (h : RetryClient.attemptStep inp item = (item1, RetryClient.StepResult.fatalErr e) ∨
         RetryClient.attemptStep inp item = (item1, RetryClient.StepResult.retryableErr e)) :
    item1.Success = false ∧ item1.AppID = item.AppID ∧ item1.WorkshopID = item.WorkshopID ∧
    (item1.ErrorMsg = item.ErrorMsg ∨
      ∃ text msg, inp = RetryClient.AttemptInput.output text ∧
        RetryClient.classifyErrorMsg text = some msg ∧ item1.ErrorMsg = msg) := by
  have hfst : (RetryClient.attemptStep inp item).1 = item1 := by
    rcases h with h | h <;> rw [h]
  cases inp with
  | execFail a b c =>
    have : item1 = item := by
      rw [← hfst]
      rfl
    subst this
    exact ⟨hS, rfl, rfl, Or.inl rfl⟩
  | output text =>
    cases hcls : RetryClient.classifyErrorMsg text with
    | none =>
      exfalso
      have hok := attemptStep_output_ok text item hcls
      rcases h with h | h <;> (rw [hok] at h; simp at h)
    | some msg =>
      have hp := parseOutput_classify_some text item msg hcls
      have hfst2 : (RetryClient.attemptStep (RetryClient.AttemptInput.output text) item).1 =
          (RetryClient.parseOutput text item).1 := by
        simp only [RetryClient.attemptStep]
        cases h2 : (RetryClient.parseOutput text item).2 with
        | none =>
          by_cases hb : (!(RetryClient.parseOutput text item).1.Success) = true
          · by_cases hr : RetryClient.isRetryableError (RetryClient.parseOutput text item).1.ErrorMsg = true <;>
              simp [h2, hb, hr]
          · simp [h2, hb]
        | some e2 =>
          by_cases hb : (!(RetryClient.parseOutput text item).1.Success &&
              RetryClient.isRetryableError (RetryClient.parseOutput text item).1.ErrorMsg) = true <;>
            simp [h2, hb]
      have hi : item1 = (RetryClient.parseOutput text item).1 := by
        rw [← hfst, hfst2]
      subst hi
      exact ⟨hp.1, hp.2.2.1, hp.2.2.2, Or.inr ⟨text, msg, rfl, hcls, hp.2.1⟩⟩

/-- C9 amended: whenever the bounded retry loop returns an error, it also
returns the item, marked unsuccessful and with its identifiers intact; the
item's ErrorMsg is either still the incoming one (possible only when every
classified attempt is absent, namely on pure run failures) or the
classification message of one of the attempts' output texts. -/
theorem c9_amended_failure_surfacing (inputs : List RetryClient.AttemptInput) :
    ∀ (r : Nat) (item item1 : WorkshopItem) (e : Str),
      item.Success = false →
      RetryClient.downloadGo r inputs item = (item1, some e) →
      item1.Success = false ∧ item1.AppID = item.AppID ∧ item1.WorkshopID = item.WorkshopID ∧
      (item1.ErrorMsg = item.ErrorMsg ∨
        ∃ text msg, RetryClient.AttemptInput.output text ∈ inputs ∧
          RetryClient.classifyErrorMsg text = some msg ∧ item1.ErrorMsg = msg) := by
  induction inputs with
  | nil =>
    intro r item item1 e hS h
    simp [RetryClient.downloadGo] at h
  | cons inp rest ih =>
    intro r item item1 e hS h
    rcases hstep : RetryClient.attemptStep inp item with ⟨itm, res⟩
    cases res with
    | ok =>
      rw [RetryClient.downloadGo, hstep] at h
      simp at h
    | fatalErr efat =>
      rw [RetryClient.downloadGo, hstep] at h
      simp only [Prod.mk.injEq] at h
      obtain ⟨h1, _⟩ := h
      have hc := attemptStep_err_spec inp item itm efat hS (Or.inl hstep)
      rw [← h1]
      refine ⟨hc.1, hc.2.1, hc.2.2.1, ?_⟩
      rcases hc.2.2.2 with hm | ⟨text, msg, hinp, hcls, hmsg⟩
      · exact Or.inl hm
      · exact Or.inr ⟨text, msg, hinp ▸ List.mem_cons_self inp rest, hcls, hmsg⟩
    | retryableErr eret =>
      rw [RetryClient.downloadGo, hstep] at h
      have hc := attemptStep_err_spec inp item itm eret hS (Or.inr hstep)
      cases r with
      | zero =>
        simp only [Prod.mk.injEq] at h
        obtain ⟨h1, _⟩ := h
        rw [← h1]
        refine ⟨hc.1, hc.2.1, hc.2.2.1, ?_⟩
        rcases hc.2.2.2 with hm | ⟨text, msg, hinp, hcls, hmsg⟩
        · exact Or.inl hm
        · exact Or.inr ⟨text, msg, hinp ▸ List.mem_cons_self inp rest, hcls, hmsg⟩
      | succ r2 =>
        have hres := ih r2 itm item1 e hc.1 h
        refine ⟨hres.1, hres.2.1.trans hc.2.1, hres.2.2.1.trans hc.2.2.1, ?_⟩
        rcases hres.2.2.2 with hm | ⟨text, msg, hmem, hcls, hmsg⟩
        · rcases hc.2.2.2 with hm2 | ⟨text, msg, hinp, hcls, hmsg⟩
          · exact Or.inl (hm.trans hm2)
          · exact Or.inr ⟨text, msg, hinp ▸ List.mem_cons_self inp rest, hcls, hm.trans hmsg⟩
        · exact Or.inr ⟨text, msg, List.mem_cons_of_mem inp hmem, hcls, hmsg⟩

/-- Counterexample to C9 as stated: a download call whose only attempt is a
process-run failure (with a `Not logged on` log, hence fatal) returns a
non-nil error, but the returned item's error-message field is empty — it
carries neither a classified reason text nor the sentinel unknown-error
message (the reason lives only in the returned error value). -/
theorem c9_counterexample_exec_failure_empty_errormsg :
    (RetryClient.DownloadWorkshopItem (("1").data) (("2").data) []
        [RetryClient.AttemptInput.execFail (("exit status 1").data) [] (("Not logged on").data)]).2 =
      some (("not logged on to Steam. Please run 'workshop login' first to authenticate").data) ∧
    (RetryClient.DownloadWorkshopItem (("1").data) (("2").data) []
        [RetryClient.AttemptInput.execFail (("exit status 1").data) [] (("Not logged on").data)]).1.ErrorMsg = [] ∧
    ([] : Str) ≠ (("Unknown error occurred").data) := by
  decide

/-- Witness for the amended C9: eleven attempts all classified as a login
failure exhaust the retries, and the loop returns the item with the last
classified message together with the error. -/
theorem c9_amended_failure_surfacing_witness :
    (initItem (("1").data) (("2").data)).Success = false ∧
    RetryClient.downloadGo 10 (List.replicate 11 (RetryClient.AttemptInput.output (("FAILED (x)").data)))
        (initItem (("1").data) (("2").data)) =
      ({ AppID := (("1").data), WorkshopID := (("2").data), Success := false, PathToFile := [], SizeBytes := 0, ErrorMsg := (("Login failed: x").data) },
       some (("download failed: Login failed: x").data)) ∧
    (({ AppID := (("1").data), WorkshopID := (("2").data), Success := false, PathToFile := [], SizeBytes := 0, ErrorMsg := (("Login failed: x").data) } : WorkshopItem).Success = false ∧
     ({ AppID := (("1").data), WorkshopID := (("2").data), Success := false, PathToFile := [], SizeBytes := 0, ErrorMsg := (("Login failed: x").data) } : WorkshopItem).AppID = (initItem (("1").data) (("2").data)).AppID ∧
     ({ AppID := (("1").data), WorkshopID := (("2").data), Success := false, PathToFile := [], SizeBytes := 0, ErrorMsg := (("Login failed: x").data) } : WorkshopItem).WorkshopID = (initItem (("1").data) (("2").data)).WorkshopID ∧
     (({ AppID := (("1").data), WorkshopID := (("2").data), Success := false, PathToFile := [], SizeBytes := 0, ErrorMsg := (("Login failed: x").data) } : WorkshopItem).ErrorMsg = (initItem (("1").data) (("2").data)).ErrorMsg ∨
      ∃ text msg, RetryClient.AttemptInput.output text ∈ List.replicate 11 (RetryClient.AttemptInput.output (("FAILED (x)").data)) ∧
        RetryClient.classifyErrorMsg text = some msg ∧
        ({ AppID := (("1").data), WorkshopID := (("2").data), Success := false, PathToFile := [], SizeBytes := 0, ErrorMsg := (("Login failed: x").data) } : WorkshopItem).ErrorMsg = msg)) :=
  ⟨rfl, by decide,
   c9_amended_failure_surfacing
     (List.replicate 11 (RetryClient.AttemptInput.output (("FAILED (x)").data))) 10
     (initItem (("1").data) (("2").data))
     { AppID := (("1").data), WorkshopID := (("2").data), Success := false, PathToFile := [], SizeBytes := 0, ErrorMsg := (("Login failed: x").data) }
     (("download failed: Login failed: x").data) rfl (by decide)⟩
